import Mathlib

/-!
Verification of the module/chain orchestration layer of 21CMMC
(`src/py21cmmc/core.py` and `src/py21cmmc/mcmc/mcmc.py`) against its
natural-language specification.

The Python code is shallowly embedded: each Python function relevant to a
claim is translated into an executable Lean definition over explicit data
types.  External collaborators (the `py21cmfast` simulation engine, the
cosmoHammer sampler machinery) are out of scope of the specification and are
modelled as deterministic, parameter-and-seed-keyed functions; in-memory
object identity of engine results is modelled with an explicit allocation
counter (`objId`), since several claims distinguish "the same object" from
"an equal object".  Python exceptions are modelled with `Except`.
-/

/-! ## A model of Python values

`ModuleBase.__eq__` (core.py lines 90-125) compares attribute values of two
stage objects with Python `==`.  `PyV` models the values that occur as
constructor-set attributes of the stage classes: `None`, booleans, ints,
floats (as rationals), strings, lists and dicts.  All dicts in this
development are built by the constructor functions below in one canonical
key order, so Python's order-insensitive dict equality agrees with the
order-sensitive comparison `PyV.beq`.
-/

inductive PyV where
  | none
  | bool (b : Bool)
  | int (n : Int)
  | rat (q : ℚ)
  | str (s : String)
  | list (xs : List PyV)
  | dict (xs : List (String × PyV))
deriving Repr

mutual

/-- Python `==` on the modelled values. -/
def PyV.beq : PyV → PyV → Bool
  | .none, .none => true
  | .bool a, .bool b => a == b
  | .int a, .int b => a == b
  | .rat a, .rat b => a == b
  | .str a, .str b => a == b
  | .list xs, .list ys => PyV.beqList xs ys
  | .dict xs, .dict ys => PyV.beqDict xs ys
  | _, _ => false
termination_by structural x => x

def PyV.beqList : List PyV → List PyV → Bool
  | [], [] => true
  | x :: xs, y :: ys => PyV.beq x y && PyV.beqList xs ys
  | _, _ => false
termination_by structural x => x

def PyV.beqDict : List (String × PyV) → List (String × PyV) → Bool
  | [], [] => true
  | (k, v) :: xs, (k2, v2) :: ys => k == k2 && PyV.beq v v2 && PyV.beqDict xs ys
  | _, _ => false
termination_by structural x => x

end

/-- Python truthiness for the modelled values (`if self.initial_conditions_seed`,
`store or {}`, `global_params or {}`). -/
def PyV.truthy : PyV → Bool
  | .none => false
  | .bool b => b
  | .int n => n != 0
  | .rat q => q != 0
  | .str s => s != ""
  | .list xs => !xs.isEmpty
  | .dict xs => !xs.isEmpty

/-- `dict.update`: entries of `upd` override entries of `base` in place;
keys of `upd` not present in `base` are appended in order. -/
def dictUpdate (base upd : List (String × PyV)) : List (String × PyV) :=
  base.map (fun kv => match upd.lookup kv.1 with
    | some v => (kv.1, v)
    | Option.none => kv)
  ++ upd.filter (fun kv => !(base.map Prod.fst).contains kv.1)

/-! ## The class hierarchy and `ModuleBase.__eq__` (core.py lines 48-125)

`__eq__` gathers `inspect.getfullargspec(cls.__init__).args` over the whole
method resolution order.  `getfullargspec(...).args` holds only the
positional-or-keyword parameters: `**kwargs` (e.g. `io_options`) and
keyword-only parameters (e.g. `max_redshift` of
`CoreLightConeModule.__init__(self, *, max_redshift=None, **kwargs)`) are
*not* in `.args`.  The lists below are those `.args` lists, read off the
`__init__` signatures in core.py.
-/

inductive PyCls where
  | moduleBase
  | coreBase
  | coreCoeval
  | coreLightCone
  | coreLuminosityFunction
  | pyObject
deriving DecidableEq, Repr

def PyCls.name : PyCls → String
  | .moduleBase => "ModuleBase"
  | .coreBase => "CoreBase"
  | .coreCoeval => "CoreCoevalModule"
  | .coreLightCone => "CoreLightConeModule"
  | .coreLuminosityFunction => "CoreLuminosityFunction"
  | .pyObject => "object"

/-- `cls.mro()` for each class in core.py. -/
def PyCls.mro : PyCls → List PyCls
  | .moduleBase => [.moduleBase, .pyObject]
  | .coreBase => [.coreBase, .moduleBase, .pyObject]
  | .coreCoeval => [.coreCoeval, .coreBase, .moduleBase, .pyObject]
  | .coreLightCone => [.coreLightCone, .coreCoeval, .coreBase, .moduleBase, .pyObject]
  | .coreLuminosityFunction =>
      [.coreLuminosityFunction, .coreCoeval, .coreBase, .moduleBase, .pyObject]
  | .pyObject => [.pyObject]

/-- `inspect.getfullargspec(cls.__init__).args`: the positional-or-keyword
parameters of each `__init__` in core.py (`self` included; `*`-marked
keyword-only parameters and `**kwargs` excluded, per `inspect` semantics). -/
def PyCls.argspecArgs : PyCls → List String
  | .moduleBase => ["self"]
  | .coreBase => ["self", "store"]
  | .coreCoeval =>
      ["self", "redshift", "user_params", "flag_options", "astro_params",
       "cosmo_params", "regenerate", "change_seed_every_iter", "ctx_variables",
       "initial_conditions_seed", "global_params"]
  | .coreLightCone => ["self"]
  | .coreLuminosityFunction => ["self", "sigma", "name", "n_muv_bins"]
  | .pyObject => ["self"]

/-- `_extra_defining_attributes` class attribute (empty on every class in core.py). -/
def PyCls.extraDefiningAttributes : PyCls → List String :=
  fun _ => []

/-- `_ignore_attributes` class attribute: `CoreCoevalModule` and its
subclasses set `["keep_data_in_memory"]` (core.py line 322). -/
def PyCls.ignoreAttributes : PyCls → List String
  | .coreCoeval => ["keep_data_in_memory"]
  | .coreLightCone => ["keep_data_in_memory"]
  | .coreLuminosityFunction => ["keep_data_in_memory"]
  | _ => []

/-- A Python stage object: its concrete class and its attribute dictionary
(in assignment order). -/
structure PyObj where
  cls : PyCls
  attrs : List (String × PyV)
deriving Repr

def PyObj.getattr (o : PyObj) (k : String) : Option PyV :=
  o.attrs.lookup k

def PyObj.hasattr (o : PyObj) (k : String) : Bool :=
  (o.getattr k).isSome

/-- The per-argument body of the loop of `ModuleBase.__eq__` (lines 101-123):
prefer the private-prefixed storage name, else the public one; a lookup
failure on `self` is logged and non-disqualifying (`.ok true`); a present
attribute missing on `other` raises an uncaught `AttributeError`
(modelled `.error ()`).  `ValueError` during comparison cannot occur for
`PyV` values, whose comparison is total. -/
def eqCompareArg (a b : PyObj) (arg : String) : Except Unit Bool :=
  if a.hasattr ("_" ++ arg) then
    match a.getattr ("_" ++ arg), b.getattr ("_" ++ arg) with
    | some va, some vb => .ok (va.beq vb)
    | _, _ => .error ()
  else if a.hasattr arg then
    match a.getattr arg, b.getattr arg with
    | some va, some vb => .ok (va.beq vb)
    | _, _ => .error ()
  else
    .ok true

def moduleEqLoop (a b : PyObj) : List String → Except Unit Bool
  | [] => .ok true
  | arg :: rest =>
    if arg == "self" || (a.cls.ignoreAttributes).contains arg then
      moduleEqLoop a b rest
    else
      match eqCompareArg a b arg with
      | .error e => .error e
      | .ok false => .ok false
      | .ok true => moduleEqLoop a b rest

/-- `ModuleBase.__eq__` (core.py lines 90-125).  `tuple(set(args))` is
modelled by `dedup`; the order of the argument list does not affect the
result when no comparison raises. -/
def moduleEq (a b : PyObj) : Except Unit Bool :=
  if a.cls.name != b.cls.name then .ok false
  else
    moduleEqLoop a b
      (((a.cls.mro.flatMap PyCls.argspecArgs).dedup)
        ++ a.cls.extraDefiningAttributes)

/-! ## Constructor embeddings for the reflection world

These mirror, attribute name by attribute name and in assignment order, the
`__init__` bodies of core.py: `ModuleBase.__init__` (line 61),
`CoreBase.__init__` (line 151), `CoreCoevalModule.__init__` (lines 324-370),
`CoreLightConeModule.__init__` (lines 527-535) and
`CoreLuminosityFunction.__init__` (lines 582-586).
-/

/-- `redshift` normalization (core.py lines 340-342): anything without
`__len__` (scalars) is wrapped in a one-element list; lists, strings and
dicts have `__len__` and pass through unchanged. -/
def normalizeRedshiftV : PyV → PyV
  | .list xs => .list xs
  | .str s => .str s
  | .dict xs => .dict xs
  | v => .list [v]

/-- Representative default fields of the external `py21cmfast` parameter
structures.  The engine's structures are out of scope of the spec ("the
physics/simulation engine ... treated as a deterministic, parameter-keyed
... function"); only that they normalize a `dict` (or `None`) of overrides
into a full field mapping matters here. -/
def p21StructDefaults : String → List (String × PyV)
  | "UserParams" => [("BOX_LEN", .rat 300), ("HII_DIM", .int 200)]
  | "FlagOptions" => [("USE_MASS_DEPENDENT_ZETA", .bool false)]
  | "AstroParams" => [("HII_EFF_FACTOR", .rat 30), ("ION_Tvir_MIN", .rat 5)]
  | "CosmoParams" =>
      [("SIGMA_8", .rat 82), ("hlittle", .rat 68), ("OMm", .rat 31),
       ("OMb", .rat 5), ("POWER_INDEX", .rat 97)]
  | _ => []

/-- `p21.UserParams(x)` and friends: defaults overridden by the supplied
dict (unknown inputs fall back to pure defaults). -/
def p21Struct (structName : String) (v : PyV) : PyV :=
  match v with
  | .dict xs => .dict (dictUpdate (p21StructDefaults structName) xs)
  | _ => .dict (p21StructDefaults structName)

/-- The keyword arguments of `CoreCoevalModule.__init__` with their source
defaults (core.py lines 324-337); `io` models the `**io_options` rest. -/
structure CoevalKw where
  redshift : PyV
  user_params : PyV := .none
  flag_options : PyV := .none
  astro_params : PyV := .none
  cosmo_params : PyV := .none
  regenerate : PyV := .bool true
  change_seed_every_iter : PyV := .bool false
  ctx_variables : PyV := .list [.str "brightness_temp", .str "xH_box"]
  initial_conditions_seed : PyV := .none
  global_params : PyV := .none
  io : List (String × PyV) := []

/-- `CoreCoevalModule.__init__` (core.py lines 324-370) as an attribute
builder, in assignment order.  `super().__init__(io_options.get("store",
None))` reaches `CoreBase.__init__` (`self.store = store or {}`) and
`ModuleBase.__init__` (`self._is_setup = False`).  The final contradictory
seed check (lines 365-370) tests Python truthiness of the seed. -/
def mkCoevalAttrs (kw : CoevalKw) : List (String × PyV) :=
  let store0 := (kw.io.lookup "store").getD .none
  let store := if store0.truthy then store0 else .dict []
  let seed0 := kw.initial_conditions_seed
  let seed := if seed0.truthy && kw.change_seed_every_iter.truthy then .none else seed0
  [("_is_setup", .bool false),
   ("store", store),
   ("redshift", normalizeRedshiftV kw.redshift),
   ("user_params", p21Struct "UserParams" kw.user_params),
   ("flag_options", p21Struct "FlagOptions" kw.flag_options),
   ("astro_params", p21Struct "AstroParams" kw.astro_params),
   ("cosmo_params", p21Struct "CosmoParams" kw.cosmo_params),
   ("change_seed_every_iter", kw.change_seed_every_iter),
   ("initial_conditions_seed", seed),
   ("regenerate", kw.regenerate),
   ("ctx_variables", kw.ctx_variables),
   ("global_params", if kw.global_params.truthy then kw.global_params else .dict []),
   ("io_options",
     .dict (dictUpdate
       [("store", .dict []), ("cache_dir", .none), ("cache_mcmc", .bool false)]
       kw.io))]

/-- `CoreCoevalModule(...)` as a `PyObj`. -/
def mkCoeval (kw : CoevalKw) : PyObj :=
  ⟨.coreCoeval, mkCoevalAttrs kw⟩

/-- `CoreLightConeModule.__init__` (core.py lines 527-535): warns (without
effect on state) if `ctx_variables` was passed, then delegates every other
keyword to `CoreCoevalModule.__init__`, then sets `self.max_redshift`.
`max_redshift` is keyword-only in the source signature. -/
def mkLightCone (max_redshift : PyV) (kw : CoevalKw) : PyObj :=
  ⟨.coreLightCone, mkCoevalAttrs kw ++ [("max_redshift", max_redshift)]⟩

/-- `CoreLuminosityFunction.__init__` (core.py lines 582-586): sets
`self._sigma`, `self.name`, `self.n_muv_bins`, then delegates to
`CoreCoevalModule.__init__`.  (Attribute order differs from the coeval
constructor but lookup is name-based.) -/
def mkLuminosityFunction (sigma : PyV) (lfName : String) (n_muv_bins : PyV)
    (kw : CoevalKw) : PyObj :=
  ⟨.coreLuminosityFunction,
    [("_sigma", sigma), ("name", .str lfName), ("n_muv_bins", n_muv_bins)]
      ++ mkCoevalAttrs kw⟩

/-! ## The staged coeval pipeline (core.py lines 229-512)

A second, typed embedding of `CoreCoevalModule`, used for the seed/caching
policy claims.  Parameter structures are association lists from field name
to value; the engine (`py21cmfast`, out of scope of the spec) is modelled
as a deterministic parameter-and-seed-keyed constructor of result objects.
Each engine call returns a *fresh* in-memory object, tagged with an
allocation id `objId` drawn from `EngineState.nextId` — this is true of the
real engine as well, whether the data is computed or read back from its
disk cache, and it is what lets the development talk about object identity.
Disk caching affects only cost, never the returned values, and is not
modelled; `regenerate`/`write` flags are therefore accepted and ignored by
the engine model.  When no `random_seed` is supplied the engine chooses one
(`EngineState.nextSeed`).
-/

/-- A parameter structure (`astro_params.self` / `cosmo_params.self`):
field name to value, in field order. -/
abbrev ParamDict := List (String × ℚ)

/-- The overlay of `CoreCoevalModule._update_params` (core.py lines
485-512): a copy of the fiducial dict updated, key by key, with the sampled
values whose names exist in the structure's defining dict; sampled names
unknown to the structure are ignored. -/
def updateDict (fid sampled : ParamDict) : ParamDict :=
  fid.map (fun kv => match sampled.lookup kv.1 with
    | some v => (kv.1, v)
    | none => kv)

structure EngineState where
  nextId : Nat
  nextSeed : Int
deriving DecidableEq, Repr

/-- Result object of `p21.initial_conditions`. -/
structure ICBox where
  objId : Nat
  user_params : Nat
  cosmo_params : ParamDict
  random_seed : Int
deriving DecidableEq, Repr

/-- Model of the external `p21.initial_conditions`: deterministic in
`(user_params, cosmo_params, random_seed)`; a fresh object every call; an
engine-chosen seed when none is given.  (When no seed is given and a
matching box exists in the disk cache the real engine adopts the cached
seed — also an engine-chosen value; the distinction is invisible here.) -/
def p21InitialConditions (user : Nat) (cosmo : ParamDict)
    (random_seed : Option Int) (_regenerate : Bool) (st : EngineState) :
    ICBox × EngineState :=
  ({ objId := st.nextId, user_params := user, cosmo_params := cosmo,
     random_seed := random_seed.getD st.nextSeed },
   { nextId := st.nextId + 1,
     nextSeed := if random_seed.isSome then st.nextSeed else st.nextSeed + 1 })

/-- Result object of `p21.perturb_field`. -/
structure PFBox where
  objId : Nat
  redshift : ℚ
  ic_user : Nat
  ic_cosmo : ParamDict
  ic_seed : Int
deriving DecidableEq, Repr

/-- Model of the external `p21.perturb_field`: keyed by the redshift and
the initial-conditions box it is built from; a fresh object every call. -/
def p21PerturbField (z : ℚ) (init_boxes : ICBox) (st : EngineState) :
    PFBox × EngineState :=
  ({ objId := st.nextId, redshift := z, ic_user := init_boxes.user_params,
     ic_cosmo := init_boxes.cosmo_params, ic_seed := init_boxes.random_seed },
   { st with nextId := st.nextId + 1 })

/-- The `for z in self.redshift` loops of core.py lines 408-418 and
433-444: one perturbed field per redshift, in order. -/
def perturbLoop (zs : List ℚ) (ic : ICBox) (st : EngineState) :
    List PFBox × EngineState :=
  match zs with
  | [] => ([], st)
  | z :: rest =>
      let pr := p21PerturbField z ic st
      let rr := perturbLoop rest ic pr.2
      (pr.1 :: rr.1, rr.2)

/-- Result object of `p21.run_coeval` (one per redshift), keyed by the
astrophysical overlay and the boxes it consumed. -/
structure Coeval where
  objId : Nat
  redshift : ℚ
  astro : ParamDict
  ic_objId : Nat
  ic_seed : Int
deriving DecidableEq, Repr

/-- Model of the external `p21.run_coeval`. -/
def p21RunCoeval (zs : List ℚ) (astro : ParamDict) (_flag : Nat)
    (init_box : ICBox) (_perturb : List PFBox) (st : EngineState) :
    List Coeval × EngineState :=
  match zs with
  | [] => ([], st)
  | z :: rest =>
      let c : Coeval :=
        { objId := st.nextId, redshift := z, astro := astro,
          ic_objId := init_box.objId, ic_seed := init_box.random_seed }
      let rr := p21RunCoeval rest astro _flag init_box _perturb
        { st with nextId := st.nextId + 1 }
      (c :: rr.1, rr.2)

/-- Attribute set of the external `Coeval` result object relevant to
`ctx_variables` extraction (a representative subset of its fields). -/
def coevalHasField (key : String) : Bool :=
  key == "brightness_temp" || key == "xH_box" || key == "density"
    || key == "velocity" || key == "Gamma12_box"

/-- `getattr(c, key)` on a `Coeval`: engine field data is out of scope and
modelled as an arbitrary deterministic function of the result's key. -/
def Coeval.getattrF (c : Coeval) (key : String) : Option ℚ :=
  if coevalHasField key then some (c.redshift + (key.length : ℚ)) else none

/-- Typed state of a `CoreCoevalModule` instance (the attributes set by
`__init__`, lines 324-370, that the pipeline methods read). -/
structure CoevalModule where
  redshift : List ℚ
  user_params : Nat
  flag_options : Nat
  astro_params : ParamDict
  cosmo_params : ParamDict
  change_seed_every_iter : Bool
  initial_conditions_seed : Option Int
  regenerate : Bool
  ctx_variables : List String
  cache_dir : Option String
  cache_mcmc : Bool
deriving DecidableEq, Repr

/-- `redshift` argument: a scalar (no `__len__`) or a sequence. -/
inductive RedshiftIn where
  | scalar (z : ℚ)
  | seq (zs : List ℚ)
deriving DecidableEq, Repr

/-- Core.py lines 340-342. -/
def normalizeRedshift : RedshiftIn → List ℚ
  | .scalar z => [z]
  | .seq zs => zs

/-- Python truthiness of the seed argument (`if self.initial_conditions_seed`). -/
def seedTruthy : Option Int → Bool
  | none => false
  | some n => n != 0

/-- `CoreCoevalModule.__init__` (core.py lines 324-370) on the typed state.
The returned `Bool` records whether the contradictory-configuration warning
of lines 365-370 was logged; when it fires, the fixed seed is unset.  The
guard tests *truthiness* of `self.initial_conditions_seed`, not whether a
seed was supplied. -/
def CoevalModule.construct (redshift : RedshiftIn) (user flag : Nat)
    (astro cosmo : ParamDict) (regenerate : Bool)
    (change_seed_every_iter : Bool) (ctx_variables : List String)
    (initial_conditions_seed : Option Int) (cache_dir : Option String)
    (cache_mcmc : Bool) : CoevalModule × Bool :=
  let warned := seedTruthy initial_conditions_seed && change_seed_every_iter
  ({ redshift := normalizeRedshift redshift,
     user_params := user,
     flag_options := flag,
     astro_params := astro,
     cosmo_params := cosmo,
     change_seed_every_iter := change_seed_every_iter,
     initial_conditions_seed :=
       if warned then none else initial_conditions_seed,
     regenerate := regenerate,
     ctx_variables := ctx_variables,
     cache_dir := cache_dir,
     cache_mcmc := cache_mcmc },
   warned)

/-- `CoreCoevalModule.setup` (core.py lines 372-419).  `super().setup()`
runs `_check_required_cores`, a no-op here because
`CoreCoevalModule.required_cores` is the empty tuple.  `chainDefaults`
models `self.chain.createChainContext().getParams()`: the chain's sampled
parameters at their fiducial values; its key set is `self.parameter_names`.
The `initial_conditions`/`perturb_field` results are bound to *local*
variables in the source and discarded — only the adopted seed is written
back to `self`. -/
def CoevalModule.setup (m : CoevalModule) (chainDefaults : ParamDict)
    (st : EngineState) : CoevalModule × EngineState :=
  let astro := updateDict m.astro_params chainDefaults
  let cosmo := updateDict m.cosmo_params chainDefaults
  let m := { m with astro_params := astro, cosmo_params := cosmo }
  let paramNames := chainDefaults.map Prod.fst
  if !(paramNames.any (fun p => (cosmo.map Prod.fst).contains p))
      && !m.change_seed_every_iter then
    let icr := p21InitialConditions m.user_params cosmo
      m.initial_conditions_seed m.regenerate st
    let m := { m with initial_conditions_seed := some icr.1.random_seed }
    let pfr := perturbLoop m.redshift icr.1 icr.2
    (m, pfr.2)
  else
    (m, st)

/-- `CoreCoevalModule.get_current_init_and_perturb` (core.py lines
421-446): re-invokes the engine with `regenerate=False` and the stored
seed. -/
def CoevalModule.get_current_init_and_perturb (m : CoevalModule)
    (cosmo : ParamDict) (st : EngineState) :
    (ICBox × List PFBox) × EngineState :=
  let icr := p21InitialConditions m.user_params cosmo
    m.initial_conditions_seed false st
  let pfr := perturbLoop m.redshift icr.1 icr.2
  ((icr.1, pfr.1), pfr.2)

/-- The `ctx.add` loop of core.py lines 476-483: for each configured field
name, the list of that field over the per-redshift results; a missing field
raises `ValueError` after the earlier additions already happened. -/
def ctxAddLoop (keys : List String) (coevals : List Coeval) :
    List (String × List ℚ) × Option String :=
  match keys with
  | [] => ([], none)
  | k :: rest =>
      match coevals.mapM (fun c => c.getattrF k) with
      | some vals =>
          let rr := ctxAddLoop rest coevals
          ((k, vals) :: rr.1, rr.2)
      | none => ([], some ("ctx_variable " ++ k ++ " not an attribute of Coeval"))

/-- `CoreCoevalModule.build_model_data` (core.py lines 448-483).  The
return value exposes, alongside the context additions (and a pending
`ValueError`, if any), the initial-conditions/perturbed-field pair and the
coeval results that the method holds in local variables, so that statements
about which artifacts an iteration used can be made. -/
def CoevalModule.build_model_data (m : CoevalModule) (sampled : ParamDict)
    (st : EngineState) :
    ((ICBox × List PFBox) × List Coeval
      × (List (String × List ℚ) × Option String)) × EngineState :=
  let astro := updateDict m.astro_params sampled
  let cosmo := updateDict m.cosmo_params sampled
  let pr := m.get_current_init_and_perturb cosmo st
  let cr := p21RunCoeval m.redshift astro m.flag_options
    pr.1.1 pr.1.2 pr.2
  ((pr.1, cr.1, ctxAddLoop m.ctx_variables cr.1), cr.2)

/-- Value (non-identity) part of an `ICBox`: everything except `objId`. -/
def ICBox.val (b : ICBox) : Nat × ParamDict × Int :=
  (b.user_params, b.cosmo_params, b.random_seed)

/-- Value (non-identity) part of a `PFBox`. -/
def PFBox.val (b : PFBox) : ℚ × Nat × ParamDict × Int :=
  (b.redshift, b.ic_user, b.ic_cosmo, b.ic_seed)

/-! ## Required-core validation and the setup protocol (core.py lines 42-165)

Stages are modelled by their class name, the class names they are instances
of (their MRO, so that a subclass satisfies a requirement on its base), and
their `required_cores` declaration.  A `required_cores` element is either a
single class or a tuple of alternatives.  Crucially, the source compares
`rc.__class__.__name__` — the name of the *metaclass* of the requirement —
which is `"type"` for a class element and `"tuple"` for a tuple element,
never the name of the required class itself.
-/

/-- A class in a `required_cores` declaration: its own name and the name of
`type(cls)` (the metaclass; `"type"` for an ordinary class). -/
structure ReqCls where
  clsName : String
  metaName : String
deriving DecidableEq, Repr

/-- An element of `required_cores`: a class, or a tuple of alternatives. -/
inductive ReqCore where
  | single (c : ReqCls)
  | group (cs : List ReqCls)
deriving DecidableEq, Repr

/-- `rc.__class__.__name__` for a `required_cores` element. -/
def ReqCore.pyClassName : ReqCore → String
  | .single c => c.metaName
  | .group _ => "tuple"

/-- `hasattr(rc, "__len__")`: tuples have it, ordinary classes do not. -/
def ReqCore.hasLen : ReqCore → Bool
  | .single _ => false
  | .group _ => true

/-- The tuple-wrapping of core.py lines 68-69. -/
def ReqCore.asGroup : ReqCore → List ReqCls
  | .single c => [c]
  | .group cs => cs

/-- A stage object as seen by the requirement checks: concrete class name,
the class names in its MRO (for `isinstance`), its `required_cores`, and
the `_is_setup` flag set by `ModuleBase.__init__`. -/
structure Stage where
  clsName : String
  instOf : List String
  required : List ReqCore
  is_setup : Bool
deriving DecidableEq, Repr

/-- `isinstance(m, r)`: the requirement's class name occurs in the object's
MRO names. -/
def stageIsInstance (m : Stage) (r : ReqCls) : Bool :=
  m.instOf.contains r.clsName

/-- `ModuleBase._check_required_cores` (core.py lines 64-75): for each
requirement group, at least one loaded core must be an instance of one of
its members; otherwise `ValueError("%s needs the %s to be loaded." %
(self.__class__.__name__, rc.__class__.__name__))` — where `rc` has just
been rebound to a tuple, so the message always says `"tuple"`. -/
def moduleBaseCheckRequiredCores (self : Stage) (cores : List Stage) :
    Except String Unit :=
  checkList self.required
where
  checkList : List ReqCore → Except String Unit
    | [] => .ok ()
    | rc :: rest =>
      let grp := rc.asGroup
      if !(cores.any (fun m => grp.any (fun r => stageIsInstance m r))) then
        .error (self.clsName ++ " needs the "
          ++ (if rc.hasLen then rc.pyClassName else "tuple")
          ++ " to be loaded.")
      else
        checkList rest

/-- The inner `for rc in self.required_cores` loop of
`CoreBase._check_required_cores` (core.py lines 157-165), for one loaded
`core`: `break` when the core's class name equals the *metaclass* name of
the requirement; raise when the core's class name equals `self`'s. -/
def coreBaseCheckInner (selfName coreName : String) :
    List ReqCore → Except String Unit
  | [] => .ok ()
  | rc :: rest =>
    if coreName == rc.pyClassName then .ok ()
    else if coreName == selfName then
      .error (selfName ++ " requires " ++ rc.pyClassName ++ " to be loaded.")
    else coreBaseCheckInner selfName coreName rest

/-- `CoreBase._check_required_cores` (core.py lines 155-165): the override
used by every core stage. -/
def coreBaseCheckRequiredCores (self : Stage) (cores : List Stage) :
    Except String Unit :=
  match cores with
  | [] => .ok ()
  | core :: rest =>
    match coreBaseCheckInner self.clsName core.clsName self.required with
    | .error e => .error e
    | .ok () => coreBaseCheckRequiredCores self rest

/-- `ModuleBase.setup` (core.py lines 143-145) for a core stage: it only
runs the (overridden) requirement check; it neither inspects nor updates
`_is_setup`. -/
def coreStageSetup (self : Stage) (cores : List Stage) :
    Except String Unit :=
  coreBaseCheckRequiredCores self cores

/-- The error taxonomy of the chain-driven setup. -/
inductive SetupError where
  | alreadySetup
  | validation (msg : String)
deriving DecidableEq, Repr

/-- Modelled from the spec: the chain driver (`LikelihoodComputationChain`
in `py21cmmc.mcmc.cosmoHammer`, a module of this repository that is not
under src/ — src/ holds only the declaration of `AlreadySetupError` and
`ModuleBase.setup`) attaches each stage once and invokes its setup; per the
spec's invariant "A stage's identity (chain-attachment) is set exactly
once; re-setup after successful setup is an error", invoking setup on an
already-set-up stage raises the designated `AlreadySetupError`, and a
successful setup marks the stage set up.  The validation it runs for a
likelihood stage is `ModuleBase._check_required_cores`, translated from the
source above. -/
def chainStageSetup (self : Stage) (cores : List Stage) :
    Except SetupError Stage :=
  if self.is_setup then
    .error .alreadySetup
  else
    match moduleBaseCheckRequiredCores self cores with
    | .error m => .error (.validation m)
    | .ok () => .ok { self with is_setup := true }

/-! ## The derived-statistic (luminosity function) stage (core.py lines 560-652) -/

/-- A numpy float that may be NaN. -/
inductive NpF where
  | nan
  | val (q : ℚ)
deriving DecidableEq, Repr

/-- `np.isnan`. -/
def NpF.isnan : NpF → Bool
  | .nan => true
  | .val _ => false

/-- NaN-propagating addition (`nan + x = nan` in numpy). -/
def NpF.addQ : NpF → ℚ → NpF
  | .nan, _ => .nan
  | .val q, d => .val (q + d)

/-- `m[~np.isnan(l)]`: keep the entries of `m` at the indices where `l` is
not NaN (numpy boolean-mask indexing; `l` and `m` have equal length). -/
def maskFilter (l m : List NpF) : List NpF :=
  (l.zip m).filterMap (fun p => if p.1.isnan then none else some p.2)

/-- The filtering block of `CoreLuminosityFunction.build_model_data`
(core.py lines 616-618): each of `Muv`, `mhalo`, `lfunc` is filtered,
redshift by redshift, by the NaN mask of the *original* `lfunc` (the
rebinding of `lfunc` happens last, so all three comprehensions see the same
mask). -/
def lfFilter (Muv mhalo lfunc : List (List NpF)) :
    List (List NpF) × List (List NpF) × List (List NpF) :=
  (List.zipWith maskFilter lfunc Muv,
   List.zipWith maskFilter lfunc mhalo,
   List.zipWith maskFilter lfunc lfunc)

/-- The per-redshift σ specification, after resolution: a float, a
callable on the UV-magnitude array, or a per-bin array.  The nested case
covers the raw `sigma` argument before resolution (a list of per-redshift
entries / a 2-D array). -/
inductive Sigma21 where
  | scalar (q : ℚ)
  | callable (f : List NpF → List ℚ)
  | arr (qs : List ℚ)
  | perZ (rows : List Sigma21)

/-- `hasattr(self._sigma, "__len__")`: floats and callables lack it,
arrays and lists have it. -/
def Sigma21.hasLen : Sigma21 → Bool
  | .scalar _ => false
  | .callable _ => false
  | .arr _ => true
  | .perZ _ => true

/-- `len(self._sigma)` (for the variants that have a length). -/
def Sigma21.lenOf : Sigma21 → Nat
  | .scalar _ => 0
  | .callable _ => 0
  | .arr qs => qs.length
  | .perZ rows => rows.length

/-- Iterating a sized `sigma` whose length matches the redshifts
(`return self._sigma` followed by `enumerate`): a 1-D array yields its
floats, a list yields its entries. -/
def Sigma21.entries : Sigma21 → List Sigma21
  | .scalar q => [.scalar q]
  | .callable f => [.callable f]
  | .arr qs => qs.map (fun q => .scalar q)
  | .perZ rows => rows

/-- The `CoreLuminosityFunction.sigma` property (core.py lines 625-636):
`None` stays `None`; a `sigma` without `__len__`, or whose length differs
from the number of redshifts, is broadcast (`[self._sigma] * len(
self.redshift)`); otherwise it is returned as is, one entry per
redshift. -/
def sigmaProperty (sigma : Option Sigma21) (nz : Nat) :
    Option (List Sigma21) :=
  match sigma with
  | none => none
  | some s =>
      if !s.hasLen || s.lenOf != nz then some (List.replicate nz s)
      else some s.entries

/-- Typed state of a `CoreLuminosityFunction` instance (the attributes its
own methods read). -/
structure LFModule where
  redshift : List ℚ
  sigmaAttr : Option Sigma21
  name : String
  n_muv_bins : Nat

/-- What `build_model_data` stores in the context under
`"luminosity_function" + self.name`. -/
structure LFCtxEntry where
  Muv : List (List NpF)
  mhalo : List (List NpF)
  lfunc : List (List NpF)
deriving DecidableEq, Repr

/-- The iteration-local context as the luminosity-function stage uses it. -/
abbrev LFCtx := List (String × LFCtxEntry)

/-- `CoreLuminosityFunction.build_model_data` (core.py lines 608-623).
`raw` is the result of `self.run(astro_params, cosmo_params)` — the
external `p21.compute_luminosity_function`, a deterministic function of the
parameter overlay, out of scope here — as the triple `(Muv, mhalo,
lfunc)`. -/
def LFModule.build_model_data (m : LFModule)
    (raw : List (List NpF) × List (List NpF) × List (List NpF))
    (ctx : LFCtx) : LFCtx :=
  let (Muv', mhalo', lfunc') := lfFilter raw.1 raw.2.1 raw.2.2
  ctx ++ [("luminosity_function" ++ m.name,
    { Muv := Muv', mhalo := mhalo', lfunc := lfunc' })]

/-- `np.random.normal(loc=0, scale=s, size=n)` resolved to its scale
array: a scalar broadcasts, an array must match the size, a callable was
already applied by the caller.  A nested (list-valued) scale is not a
valid numpy scale and raises. -/
def resolveScale (s : Sigma21) (muv : List NpF) (n : Nat) :
    Except String (List ℚ) :=
  match s with
  | .callable f =>
      let qs := f muv
      if qs.length == n then .ok qs
      else .error "operands could not be broadcast together"
  | .scalar q => .ok (List.replicate n q)
  | .arr qs =>
      if qs.length == n then .ok qs
      else .error "operands could not be broadcast together"
  | .perZ _ => .error "setting an array element with a sequence"

/-- The `for i, s in enumerate(self.sigma)` loop of core.py lines 646-651:
per redshift, draw one normal deviate per retained bin and add it to
`lfunc[i]` in place.  The external random source is an oracle `rng` of
standard normal draws, consumed left to right; a draw with standard
deviation σ is modelled as σ times a standard draw.  The `try`/`except
TypeError` dispatch on `s(muv)` is the callable case of `resolveScale`.
Running past the end of `lfunc` raises `IndexError`. -/
def mockLoop (rng : Nat → ℚ) :
    List Sigma21 → List (List NpF) → List (List NpF) → Nat →
    Except String (List (List NpF))
  | [], lf, _, _ => .ok lf
  | _ :: _, [], _, _ => .error "list index out of range"
  | _ :: _, _ :: _, [], _ => .error "list index out of range"
  | s :: ss, lf :: lfRest, mu :: muRest, k =>
    match resolveScale s mu lf.length with
    | .error e => .error e
    | .ok scale =>
        let draws := (List.range lf.length).map
          (fun j => (scale.getD j 0) * rng (k + j))
        let lf' := List.zipWith NpF.addQ lf draws
        match mockLoop rng ss lfRest muRest (k + lf.length) with
        | .error e => .error e
        | .ok rest => .ok (lf' :: rest)

/-- `CoreLuminosityFunction.convert_model_to_mock` (core.py lines
638-652): the very first statement raises
`ValueError("Cannot create a mock with sigma=None!")` when the `sigma`
property is `None`, before the context is touched. -/
def LFModule.convert_model_to_mock (m : LFModule) (ctx : LFCtx)
    (rng : Nat → ℚ) : Except String LFCtx :=
  match sigmaProperty m.sigmaAttr m.redshift.length with
  | none => .error "Cannot create a mock with sigma=None!"
  | some sigmas =>
      match ctx.lookup ("luminosity_function" ++ m.name) with
      | none => .error "luminosity function not found in context"
      | some e =>
          match mockLoop rng sigmas e.lfunc e.Muv 0 with
          | .error err => .error err
          | .ok lf' =>
              .ok (ctx.map (fun kv =>
                if kv.1 == "luminosity_function" ++ m.name then
                  (kv.1, { kv.2 with lfunc := lf' })
                else kv))

/-! ## `CoreBase.prepare_storage` (core.py lines 167-176)

`storage` is a mutable mapping written entry by entry; an exception from a
storage function is logged and re-raised.  The writes that happened before
the failing entry remain in `storage` — the function does not roll back.
The `store` mapping is an insertion-ordered dict of name → function of the
context. -/

/-- One pass of `prepare_storage` over the ordered `store` entries: the
first component is the storage mapping as mutated so far, the second the
re-raised exception, if any. -/
def prepare_storage {Ctx E V : Type} (store : List (String × (Ctx → Except E V)))
    (ctx : Ctx) (storage : List (String × V)) :
    List (String × V) × Option E :=
  match store with
  | [] => (storage, none)
  | (n, f) :: rest =>
      match f ctx with
      | .ok v => prepare_storage rest ctx (storage ++ [(n, v)])
      | .error e => (storage, some e)

/-- The successful evaluation of a prefix of `store` entries: `some` of the
name/value pairs when every entry succeeds on `ctx`. -/
def storeResults {Ctx E V : Type} (entries : List (String × (Ctx → Except E V)))
    (ctx : Ctx) : Option (List (String × V)) :=
  match entries with
  | [] => some []
  | (n, f) :: rest =>
      match f ctx, storeResults rest ctx with
      | .ok v, some vs => some ((n, v) :: vs)
      | _, _ => none

/-! ## A concrete chain configuration exercising the seed/caching policy

One `CoreCoevalModule` with redshift 9, a fiducial astrophysical parameter,
a cosmological parameter set not overlapping the single sampled parameter
`HII_EFF_FACTOR`, `change_seed_every_iter=False` and no fixed seed; then
`setup()` followed by two consecutive `build_model_data` iterations, as the
chain driver performs them. -/

def c1Module : CoevalModule :=
  (CoevalModule.construct (.scalar 9) 0 0 [("HII_EFF_FACTOR", 30)]
    [("SIGMA_8", 82)] true false ["brightness_temp", "xH_box"] none none
    false).1

def c1Setup : CoevalModule × EngineState :=
  c1Module.setup [("HII_EFF_FACTOR", 35)] ⟨0, 7⟩

def c1Build1 :=
  c1Setup.1.build_model_data [("HII_EFF_FACTOR", 35)] c1Setup.2

def c1Build2 :=
  c1Setup.1.build_model_data [("HII_EFF_FACTOR", 35)] c1Build1.2

/-! ## Theorems -/

/-- C2: the claim asserts that equality between stages compares *every*
constructor-declared field, and in particular that changing `max_redshift`
on the light-cone stage breaks equality.  The code collects
`inspect.getfullargspec(cls.__init__).args`, which omits keyword-only
parameters, and `max_redshift` is keyword-only; so two light-cone stages
that differ *only* in `max_redshift` (here `None` versus `10.0`) compare
equal — contradicting the claim and the source's own stated intent that
the attributes passed to `__init__` define equality. -/
theorem C2_lightcone_max_redshift_equality_bug :
    moduleEq (mkLightCone .none { redshift := .rat 7 })
      (mkLightCone (.rat 10) { redshift := .rat 7 }) = .ok true := by
  rfl

/-- C3: the claim asserts `setup()` succeeds when every `required_cores`
group is satisfied.  For core stages, `setup()` runs the override
`CoreBase._check_required_cores`, which compares each loaded core's class
name with `rc.__class__.__name__` — the *metaclass* name (`"type"`) of the
required class, never its own name — and therefore raises
`ValueError("CoreB requires type to be loaded.")` as soon as it reaches
the stage itself, even though an instance of the required class `CoreA`
is loaded in the chain. -/
theorem C3_corebase_check_raises_when_satisfied :
    coreStageSetup
      { clsName := "CoreB", instOf := ["CoreB", "CoreBase", "ModuleBase", "object"],
        required := [.single { clsName := "CoreA", metaName := "type" }],
        is_setup := false }
      [{ clsName := "CoreA", instOf := ["CoreA", "CoreBase", "ModuleBase", "object"],
         required := [], is_setup := false },
       { clsName := "CoreB", instOf := ["CoreB", "CoreBase", "ModuleBase", "object"],
         required := [.single { clsName := "CoreA", metaName := "type" }],
         is_setup := false }]
      = .error "CoreB requires type to be loaded." := by
  rfl

/-- C4: on a stage whose setup has completed successfully (so the chain
driver marked it set up), invoking setup a second time raises the
designated already-set-up error. -/
theorem C4_second_setup_raises_already_setup (s : Stage)
    (cores : List Stage) (s' : Stage)
    (h : chainStageSetup s cores = .ok s') :
    chainStageSetup s' cores = .error .alreadySetup := by
  unfold chainStageSetup at h ⊢
  by_cases hs : s.is_setup
  · simp [hs] at h
  · simp only [hs, if_false] at h
    cases hc : moduleBaseCheckRequiredCores s cores with
    | error m => rw [hc] at h; cases h
    | ok u => rw [hc] at h
              cases u
              cases h
              simp

theorem C4_second_setup_raises_already_setup_witness :
    chainStageSetup
      { clsName := "LikelihoodX", instOf := ["LikelihoodX", "ModuleBase", "object"],
        required := [], is_setup := true } []
      = .error .alreadySetup :=
  C4_second_setup_raises_already_setup
    { clsName := "LikelihoodX", instOf := ["LikelihoodX", "ModuleBase", "object"],
      required := [], is_setup := false } []
    _ rfl

/-- C5 counterexample: the claim quantifies over *every* fixed
`initial_conditions_seed`; constructed with the fixed seed `0` and
`change_seed_every_iter=True`, no warning is logged and the seed is *not*
discarded (it remains `0`, not unset), because the source tests the seed's
truthiness and `0` is falsy. -/
theorem C5_zero_seed_counterexample :
    (CoevalModule.construct (.scalar 9) 0 0 [] [] true true
      ["brightness_temp", "xH_box"] (some 0) none false).2 = false
    ∧ (CoevalModule.construct (.scalar 9) 0 0 [] [] true true
      ["brightness_temp", "xH_box"] (some 0) none false).1.initial_conditions_seed
      = some 0 :=
  ⟨rfl, rfl⟩

/-- C5 (amended): for every CoreCoevalModule constructed with a *truthy*
(non-zero) fixed `initial_conditions_seed` together with
`change_seed_every_iter=True`, construction succeeds, the
contradictory-configuration warning is logged and the fixed seed is
discarded: afterwards `initial_conditions_seed` is unset. -/
theorem C5_truthy_seed_discarded_with_warning (r : RedshiftIn)
    (user flag : Nat) (astro cosmo : ParamDict) (rg : Bool)
    (cv : List String) (cd : Option String) (cm : Bool) (n : Int)
    (h : n ≠ 0) :
    (CoevalModule.construct r user flag astro cosmo rg true cv (some n) cd cm).2
      = true
    ∧ (CoevalModule.construct r user flag astro cosmo rg true cv (some n) cd
        cm).1.initial_conditions_seed = none := by
  have ht : seedTruthy (some n) = true := by
    simp [seedTruthy, h]
  constructor
  · simp [CoevalModule.construct, ht]
  · simp [CoevalModule.construct, ht]

theorem C5_truthy_seed_discarded_with_warning_witness :
    (1234 : Int) ≠ 0
    ∧ ((CoevalModule.construct (.scalar 9) 0 0 [] [] true true [] (some 1234)
        none false).2 = true
      ∧ (CoevalModule.construct (.scalar 9) 0 0 [] [] true true [] (some 1234)
        none false).1.initial_conditions_seed = none) :=
  ⟨by decide,
   C5_truthy_seed_discarded_with_warning (.scalar 9) 0 0 [] [] true [] none
     false 1234 (by decide)⟩

/-- C8: a scalar redshift `z` and the one-element sequence `[z]` produce
the same normalized `redshift` attribute, namely the ordered sequence
`[z]`; the attribute is a sequence (`List ℚ`) after every construction by
the type of `CoevalModule.redshift`. -/
theorem C8_scalar_redshift_normalization (z : ℚ) (user flag : Nat)
    (astro cosmo : ParamDict) (rg ch : Bool) (cv : List String)
    (seed : Option Int) (cd : Option String) (cm : Bool) :
    (CoevalModule.construct (.scalar z) user flag astro cosmo rg ch cv seed
      cd cm).1.redshift
      = (CoevalModule.construct (.seq [z]) user flag astro cosmo rg ch cv seed
        cd cm).1.redshift
    ∧ (CoevalModule.construct (.scalar z) user flag astro cosmo rg ch cv seed
      cd cm).1.redshift = [z] :=
  ⟨rfl, rfl⟩

/-- C10: constructed with `initial_conditions_seed=0` and
`change_seed_every_iter=True`, the contradictory-configuration correction
does not trigger: no warning is logged and the seed remains `0`, because
the source checks the seed's truthiness (`if self.initial_conditions_seed`)
rather than whether a seed was supplied. -/
theorem C10_zero_seed_escapes_correction (r : RedshiftIn) (user flag : Nat)
    (astro cosmo : ParamDict) (rg : Bool) (cv : List String)
    (cd : Option String) (cm : Bool) :
    (CoevalModule.construct r user flag astro cosmo rg true cv (some 0) cd
      cm).2 = false
    ∧ (CoevalModule.construct r user flag astro cosmo rg true cv (some 0) cd
      cm).1.initial_conditions_seed = some 0 :=
  ⟨rfl, rfl⟩

/-- C7: invoking mock generation on a derived-statistic stage with no
noise specification (`sigma` unset) raises
`ValueError("Cannot create a mock with sigma=None!")`, regardless of the
context contents — the check is the first statement of
`convert_model_to_mock`. -/
theorem C7_mock_without_sigma_raises (m : LFModule) (ctx : LFCtx)
    (rng : Nat → ℚ) (h : m.sigmaAttr = none) :
    m.convert_model_to_mock ctx rng
      = .error "Cannot create a mock with sigma=None!" := by
  unfold LFModule.convert_model_to_mock
  rw [h]
  rfl

theorem C7_mock_without_sigma_raises_witness :
    (({ redshift := [6, 7], sigmaAttr := none, name := "", n_muv_bins := 100 }
      : LFModule)).sigmaAttr = none
    ∧ (({ redshift := [6, 7], sigmaAttr := none, name := "", n_muv_bins := 100 }
      : LFModule)).convert_model_to_mock
        [("luminosity_function", ⟨[[.val 1]], [[.val 2]], [[.val 3]]⟩)]
        (fun _ => 0)
      = .error "Cannot create a mock with sigma=None!" :=
  ⟨rfl,
   C7_mock_without_sigma_raises
     { redshift := [6, 7], sigmaAttr := none, name := "", n_muv_bins := 100 }
     [("luminosity_function", ⟨[[.val 1]], [[.val 2]], [[.val 3]]⟩)]
     (fun _ => 0) rfl⟩

/-- C9: when the extraction function of some `store` entry raises during
`prepare_storage`, the exception propagates, but the storage mapping
already contains the values of every entry processed before the failing
one — earlier writes are not rolled back. -/
theorem C9_prepare_storage_not_atomic {Ctx E V : Type}
    (pre post : List (String × (Ctx → Except E V))) (n : String)
    (f : Ctx → Except E V) (ctx : Ctx) (storage : List (String × V))
    (e : E) (results : List (String × V))
    (hf : f ctx = .error e)
    (hpre : storeResults pre ctx = some results) :
    prepare_storage (pre ++ (n, f) :: post) ctx storage
      = (storage ++ results, some e) := by
  induction pre generalizing storage results with
  | nil =>
      simp only [storeResults, Option.some.injEq] at hpre
      subst hpre
      simp [prepare_storage, hf]
  | cons kv rest ih =>
      obtain ⟨nm, g⟩ := kv
      simp only [storeResults] at hpre
      cases hg : g ctx with
      | error e2 => rw [hg] at hpre; cases hpre
      | ok v =>
          rw [hg] at hpre
          cases hrest : storeResults rest ctx with
          | none => rw [hrest] at hpre; cases hpre
          | some vs =>
              rw [hrest] at hpre
              simp only [Option.some.injEq] at hpre
              subst hpre
              simp only [List.cons_append, prepare_storage, hg, List.append_eq]
              rw [ih (storage ++ [(nm, v)]) vs hrest]
              simp

theorem C9_prepare_storage_not_atomic_witness :
    ((fun (_ : Nat) => (Except.error "boom" : Except String Int)) 0
      = .error "boom")
    ∧ (storeResults
        ([("a", fun _ => .ok 1), ("b", fun _ => .ok 2)]
          : List (String × (Nat → Except String Int))) 0
      = some [("a", 1), ("b", 2)])
    ∧ (prepare_storage
        (([("a", fun _ => .ok 1), ("b", fun _ => .ok 2)]
            : List (String × (Nat → Except String Int)))
          ++ ("bad", fun _ => .error "boom")
            :: [("c", fun _ => .ok 3)])
        0 [("z", 9)]
      = ([("z", 9)] ++ [("a", 1), ("b", 2)], some "boom")) :=
  ⟨rfl, rfl,
   C9_prepare_storage_not_atomic
     ([("a", fun _ => .ok 1), ("b", fun _ => .ok 2)]
       : List (String × (Nat → Except String Int)))
     [("c", fun _ => .ok 3)]
     "bad" (fun _ => .error "boom") 0 [("z", 9)] "boom" [("a", 1), ("b", 2)]
     rfl rfl⟩

theorem maskFilter_cons (x y : NpF) (xs ys : List NpF) :
    maskFilter (x :: xs) (y :: ys)
      = if x.isnan then maskFilter xs ys else y :: maskFilter xs ys := by
  by_cases h : x.isnan <;> simp [maskFilter, List.filterMap_cons, h]

theorem maskFilter_self (l : List NpF) :
    maskFilter l l = l.filter (fun x => !x.isnan) := by
  induction l with
  | nil => rfl
  | cons x xs ih =>
      by_cases h : x.isnan <;> simp [maskFilter_cons, List.filter_cons, h, ih]

theorem maskFilter_zip (l m : List NpF) (h : l.length = m.length) :
    (l.filter (fun x => !x.isnan)).zip (maskFilter l m)
      = (l.zip m).filter (fun p => !p.1.isnan) := by
  induction l generalizing m with
  | nil => rfl
  | cons x xs ih =>
      cases m with
      | nil => simp at h
      | cons y ys =>
          have h' : xs.length = ys.length := by simpa using h
          by_cases hx : x.isnan <;>
            simp [maskFilter_cons, hx, List.filter_cons, ih ys h']

theorem maskFilter_length (l m : List NpF) (h : l.length = m.length) :
    (maskFilter l m).length = (l.filter (fun x => !x.isnan)).length := by
  induction l generalizing m with
  | nil => rfl
  | cons x xs ih =>
      cases m with
      | nil => simp at h
      | cons y ys =>
          have h' : xs.length = ys.length := by simpa using h
          by_cases hx : x.isnan <;>
            simp [maskFilter_cons, hx, List.filter_cons, ih ys h']

/-- C6: the derived-statistic stage's `build_model_data` drops, redshift
by redshift, every bin whose `lfunc` value is NaN: the stored `lfunc` is
exactly the NaN-free subsequence of the raw one (absent, not zeroed), the
stored `Muv` and `mhalo` have the same per-redshift lengths as the stored
`lfunc`, and zipping the stored `lfunc` with the stored `Muv` (resp.
`mhalo`) gives exactly the raw pairs at non-NaN bins — index alignment is
preserved by the shared mask. -/
theorem C6_nan_filtering_aligned (m : LFModule)
    (Muv mhalo lfunc : List (List NpF)) (ctx : LFCtx)
    (hM : List.Forall₂ (fun l mu => l.length = mu.length) lfunc Muv)
    (hh : List.Forall₂ (fun l mh => l.length = mh.length) lfunc mhalo) :
    (lfFilter Muv mhalo lfunc).2.2
        = lfunc.map (fun l => l.filter (fun x => !x.isnan))
    ∧ List.Forall₂ (fun lf mu => lf.length = mu.length)
        (lfFilter Muv mhalo lfunc).2.2 (lfFilter Muv mhalo lfunc).1
    ∧ List.Forall₂ (fun lf mh => lf.length = mh.length)
        (lfFilter Muv mhalo lfunc).2.2 (lfFilter Muv mhalo lfunc).2.1
    ∧ List.zipWith List.zip (lfFilter Muv mhalo lfunc).2.2
        (lfFilter Muv mhalo lfunc).1
        = List.zipWith (fun l mu => (l.zip mu).filter (fun p => !p.1.isnan))
          lfunc Muv
    ∧ List.zipWith List.zip (lfFilter Muv mhalo lfunc).2.2
        (lfFilter Muv mhalo lfunc).2.1
        = List.zipWith (fun l mh => (l.zip mh).filter (fun p => !p.1.isnan))
          lfunc mhalo
    ∧ m.build_model_data (Muv, mhalo, lfunc) ctx
        = ctx ++ [("luminosity_function" ++ m.name,
            ⟨(lfFilter Muv mhalo lfunc).1, (lfFilter Muv mhalo lfunc).2.1,
             (lfFilter Muv mhalo lfunc).2.2⟩)] := by
  refine ⟨?_, ?_, ?_, ?_, ?_, rfl⟩
  · show List.zipWith maskFilter lfunc lfunc = _
    clear hM hh
    induction lfunc with
    | nil => rfl
    | cons l ls ih => simp [maskFilter_self, ih]
  · show List.Forall₂ _ (List.zipWith maskFilter lfunc lfunc)
      (List.zipWith maskFilter lfunc Muv)
    clear hh
    induction hM with
    | nil => exact .nil
    | cons hlen htail ih =>
        exact .cons
          (by rw [maskFilter_self, maskFilter_length _ _ hlen]) ih
  · show List.Forall₂ _ (List.zipWith maskFilter lfunc lfunc)
      (List.zipWith maskFilter lfunc mhalo)
    clear hM
    induction hh with
    | nil => exact .nil
    | cons hlen htail ih =>
        exact .cons
          (by rw [maskFilter_self, maskFilter_length _ _ hlen]) ih
  · show List.zipWith List.zip (List.zipWith maskFilter lfunc lfunc)
      (List.zipWith maskFilter lfunc Muv) = _
    clear hh
    induction hM with
    | nil => rfl
    | cons hlen htail ih =>
        simp only [List.zipWith_cons_cons]
        rw [maskFilter_self, maskFilter_zip _ _ hlen, ih]
  · show List.zipWith List.zip (List.zipWith maskFilter lfunc lfunc)
      (List.zipWith maskFilter lfunc mhalo) = _
    clear hM
    induction hh with
    | nil => rfl
    | cons hlen htail ih =>
        simp only [List.zipWith_cons_cons]
        rw [maskFilter_self, maskFilter_zip _ _ hlen, ih]

theorem C6_nan_filtering_aligned_witness :
    (List.Forall₂ (fun (l mu : List NpF) => l.length = mu.length)
      [[.val 1, .nan, .val 3], [.nan]]
      [[.val 10, .val 20, .val 30], [.val 5]])
    ∧ (List.Forall₂ (fun (l mh : List NpF) => l.length = mh.length)
      [[.val 1, .nan, .val 3], [.nan]]
      [[.val 7, .val 8, .val 9], [.val 4]])
    ∧ ((lfFilter [[.val 10, .val 20, .val 30], [.val 5]]
          [[.val 7, .val 8, .val 9], [.val 4]]
          [[.val 1, .nan, .val 3], [.nan]]).2.2
        = ([[.val 1, .nan, .val 3], [.nan]] : List (List NpF)).map
            (fun l => l.filter (fun x => !x.isnan))
      ∧ List.Forall₂ (fun (lf mu : List NpF) => lf.length = mu.length)
          (lfFilter [[.val 10, .val 20, .val 30], [.val 5]]
            [[.val 7, .val 8, .val 9], [.val 4]]
            [[.val 1, .nan, .val 3], [.nan]]).2.2
          (lfFilter [[.val 10, .val 20, .val 30], [.val 5]]
            [[.val 7, .val 8, .val 9], [.val 4]]
            [[.val 1, .nan, .val 3], [.nan]]).1
      ∧ List.Forall₂ (fun (lf mh : List NpF) => lf.length = mh.length)
          (lfFilter [[.val 10, .val 20, .val 30], [.val 5]]
            [[.val 7, .val 8, .val 9], [.val 4]]
            [[.val 1, .nan, .val 3], [.nan]]).2.2
          (lfFilter [[.val 10, .val 20, .val 30], [.val 5]]
            [[.val 7, .val 8, .val 9], [.val 4]]
            [[.val 1, .nan, .val 3], [.nan]]).2.1
      ∧ List.zipWith List.zip
          (lfFilter [[.val 10, .val 20, .val 30], [.val 5]]
            [[.val 7, .val 8, .val 9], [.val 4]]
            [[.val 1, .nan, .val 3], [.nan]]).2.2
          (lfFilter [[.val 10, .val 20, .val 30], [.val 5]]
            [[.val 7, .val 8, .val 9], [.val 4]]
            [[.val 1, .nan, .val 3], [.nan]]).1
          = List.zipWith
            (fun l mu => (l.zip mu).filter (fun p => !p.1.isnan))
            [[.val 1, .nan, .val 3], [.nan]]
            [[.val 10, .val 20, .val 30], [.val 5]]
      ∧ List.zipWith List.zip
          (lfFilter [[.val 10, .val 20, .val 30], [.val 5]]
            [[.val 7, .val 8, .val 9], [.val 4]]
            [[.val 1, .nan, .val 3], [.nan]]).2.2
          (lfFilter [[.val 10, .val 20, .val 30], [.val 5]]
            [[.val 7, .val 8, .val 9], [.val 4]]
            [[.val 1, .nan, .val 3], [.nan]]).2.1
          = List.zipWith
            (fun l mh => (l.zip mh).filter (fun p => !p.1.isnan))
            [[.val 1, .nan, .val 3], [.nan]]
            [[.val 7, .val 8, .val 9], [.val 4]]
      ∧ LFModule.build_model_data
          { redshift := [6, 7], sigmaAttr := none, name := "", n_muv_bins := 100 }
          ([[.val 10, .val 20, .val 30], [.val 5]],
           [[.val 7, .val 8, .val 9], [.val 4]],
           [[.val 1, .nan, .val 3], [.nan]]) []
          = [] ++ [("luminosity_function",
              ⟨(lfFilter [[.val 10, .val 20, .val 30], [.val 5]]
                  [[.val 7, .val 8, .val 9], [.val 4]]
                  [[.val 1, .nan, .val 3], [.nan]]).1,
               (lfFilter [[.val 10, .val 20, .val 30], [.val 5]]
                  [[.val 7, .val 8, .val 9], [.val 4]]
                  [[.val 1, .nan, .val 3], [.nan]]).2.1,
               (lfFilter [[.val 10, .val 20, .val 30], [.val 5]]
                  [[.val 7, .val 8, .val 9], [.val 4]]
                  [[.val 1, .nan, .val 3], [.nan]]).2.2⟩)]) :=
  ⟨.cons rfl (.cons rfl .nil),
   .cons rfl (.cons rfl .nil),
   C6_nan_filtering_aligned
     { redshift := [6, 7], sigmaAttr := none, name := "", n_muv_bins := 100 }
     [[.val 10, .val 20, .val 30], [.val 5]]
     [[.val 7, .val 8, .val 9], [.val 4]]
     [[.val 1, .nan, .val 3], [.nan]] []
     (.cons rfl (.cons rfl .nil)) (.cons rfl (.cons rfl .nil))⟩

theorem lookup_some_mem_fst (s : ParamDict) (k : String) (v : ℚ)
    (h : s.lookup k = some v) : k ∈ s.map Prod.fst := by
  induction s with
  | nil => cases h
  | cons kv t ih =>
      simp only [List.lookup] at h
      cases hk : k == kv.1 with
      | true =>
          simp only [List.map_cons, List.mem_cons]
          left
          exact eq_of_beq hk
      | false =>
          rw [hk] at h
          exact List.mem_cons_of_mem _ (ih h)

theorem lookup_none_of_keys_disjoint (s fid : ParamDict)
    (h : ∀ p ∈ s.map Prod.fst, p ∉ fid.map Prod.fst)
    (kv : String × ℚ) (hkv : kv ∈ fid) : s.lookup kv.1 = none := by
  cases hl : s.lookup kv.1 with
  | none => rfl
  | some v =>
      exact absurd (List.mem_map_of_mem Prod.fst hkv)
        (h kv.1 (lookup_some_mem_fst s kv.1 v hl))

theorem updateDict_fst (fid s : ParamDict) :
    (updateDict fid s).map Prod.fst = fid.map Prod.fst := by
  simp only [updateDict, List.map_map]
  apply List.map_congr_left
  intro kv _
  simp only [Function.comp_apply]
  cases hl : s.lookup kv.1 <;> simp [hl]

theorem updateDict_disjoint (fid s : ParamDict)
    (h : ∀ kv ∈ fid, s.lookup kv.1 = none) : updateDict fid s = fid := by
  induction fid with
  | nil => rfl
  | cons kv t ih =>
      simp only [updateDict, List.map_cons] at *
      rw [h kv (List.mem_cons_self kv t)]
      exact congrArg _ (ih (fun kv2 h2 => h kv2 (List.mem_cons_of_mem _ h2)))

theorem perturbLoop_nextId (zs : List ℚ) (ic : ICBox) (st : EngineState) :
    ((perturbLoop zs ic st).2).nextId = st.nextId + zs.length := by
  induction zs generalizing st with
  | nil => rfl
  | cons z rest ih =>
      simp only [perturbLoop, p21PerturbField, ih]
      simp
      omega

theorem perturbLoop_nextSeed (zs : List ℚ) (ic : ICBox) (st : EngineState) :
    ((perturbLoop zs ic st).2).nextSeed = st.nextSeed := by
  induction zs generalizing st with
  | nil => rfl
  | cons z rest ih => simp only [perturbLoop, p21PerturbField, ih]

theorem perturbLoop_vals (zs : List ℚ) (ic : ICBox) (st : EngineState) :
    ((perturbLoop zs ic st).1).map PFBox.val
      = zs.map (fun z =>
          (z, ic.user_params, ic.cosmo_params, ic.random_seed)) := by
  induction zs generalizing st with
  | nil => rfl
  | cons z rest ih =>
      simp only [perturbLoop, p21PerturbField, List.map_cons, ih]
      rfl

theorem runCoeval_nextId (zs : List ℚ) (astro : ParamDict) (flag : Nat)
    (ic : ICBox) (pfs : List PFBox) (st : EngineState) :
    ((p21RunCoeval zs astro flag ic pfs st).2).nextId
      = st.nextId + zs.length := by
  induction zs generalizing st with
  | nil => rfl
  | cons z rest ih =>
      simp only [p21RunCoeval, ih]
      simp
      omega

theorem setup_spec (m : CoevalModule) (cd : ParamDict) (st : EngineState)
    (hch : m.change_seed_every_iter = false)
    (hchain : ∀ p ∈ cd.map Prod.fst, p ∉ m.cosmo_params.map Prod.fst) :
    (m.setup cd st).1
        = { m with
            astro_params := updateDict m.astro_params cd,
            initial_conditions_seed :=
              some (m.initial_conditions_seed.getD st.nextSeed) }
    ∧ ((m.setup cd st).2).nextId = st.nextId + 1 + m.redshift.length := by
  have hc : updateDict m.cosmo_params cd = m.cosmo_params :=
    updateDict_disjoint _ _
      (fun kv hkv => lookup_none_of_keys_disjoint _ _ hchain kv hkv)
  have hany : (cd.map Prod.fst).any
      (fun p => (m.cosmo_params.map Prod.fst).contains p) = false := by
    rw [List.any_eq_false]
    intro p hp
    simpa using hchain p hp
  unfold CoevalModule.setup
  simp only [hc, hch, hany, p21InitialConditions]
  refine ⟨rfl, ?_⟩
  simp [perturbLoop_nextId]

theorem build_spec (mm : CoevalModule) (sampled : ParamDict)
    (st : EngineState) (s : Int)
    (hseed : mm.initial_conditions_seed = some s)
    (hsamp : ∀ p ∈ sampled.map Prod.fst, p ∉ mm.cosmo_params.map Prod.fst) :
    (mm.build_model_data sampled st).1.1.1
        = { objId := st.nextId, user_params := mm.user_params,
            cosmo_params := mm.cosmo_params, random_seed := s }
    ∧ ((mm.build_model_data sampled st).1.1.2).map PFBox.val
        = mm.redshift.map (fun z =>
            (z, mm.user_params, mm.cosmo_params, s))
    ∧ ((mm.build_model_data sampled st).2).nextId
        = st.nextId + 1 + mm.redshift.length + mm.redshift.length := by
  have hc : updateDict mm.cosmo_params sampled = mm.cosmo_params :=
    updateDict_disjoint _ _
      (fun kv hkv => lookup_none_of_keys_disjoint _ _ hsamp kv hkv)
  unfold CoevalModule.build_model_data CoevalModule.get_current_init_and_perturb
  simp only [hc, hseed, p21InitialConditions, Option.getD_some]
  refine ⟨trivial, ?_, ?_⟩
  · rw [perturbLoop_vals]
  · rw [runCoeval_nextId, perturbLoop_nextId]

/-- C1 counterexample: in the concrete run `c1Setup`/`c1Build1`/`c1Build2`
(no cosmological parameter sampled, `change_seed_every_iter=False`), the
initial-conditions/perturbed-field pairs used by the two consecutive
`build_model_data` calls are *not* the identical in-memory objects — their
allocation identities differ, because `setup()` binds its computed boxes to
discarded locals and `build_model_data` re-invokes the engine each
iteration — they are merely equal in value. -/
theorem C1_pair_identity_counterexample :
    c1Build1.1.1.1.objId ≠ c1Build2.1.1.1.objId
    ∧ c1Build1.1.1.1 ≠ c1Build2.1.1.1
    ∧ c1Build1.1.1.1.val = c1Build2.1.1.1.val
    ∧ (c1Build1.1.1.2).map PFBox.val = (c1Build2.1.1.2).map PFBox.val := by
  refine ⟨by decide, by decide, by decide, by decide⟩

/-- C1 (amended): with `change_seed_every_iter=False` and no sampled
parameter naming a cosmological field, `setup()` computes the
initial-conditions and perturbed-field artifacts once and fixes the random
seed; every subsequent `build_model_data` re-obtains the pair by
re-invoking the engine (through its disk cache, `regenerate=False`) with
that same seed and the unchanged cosmological parameters, so consecutive
iterations use pairs that are equal in value — same parameter-and-seed key,
same per-redshift perturbed-field values — but are freshly constructed
objects, not one reused in-memory object. -/
theorem C1_setup_fixes_seed_and_value_reuse (m : CoevalModule)
    (cd sampled1 sampled2 : ParamDict) (st : EngineState)
    (hch : m.change_seed_every_iter = false)
    (hchain : ∀ p ∈ cd.map Prod.fst, p ∉ m.cosmo_params.map Prod.fst)
    (hs1 : ∀ p ∈ sampled1.map Prod.fst, p ∉ m.cosmo_params.map Prod.fst)
    (hs2 : ∀ p ∈ sampled2.map Prod.fst, p ∉ m.cosmo_params.map Prod.fst) :
    ((m.setup cd st).1).initial_conditions_seed
        = some ((((m.setup cd st).1).build_model_data sampled1
            (m.setup cd st).2).1.1.1.random_seed)
    ∧ ((((m.setup cd st).1).build_model_data sampled1
          (m.setup cd st).2).1.1.1).val
        = ((((m.setup cd st).1).build_model_data sampled2
            ((((m.setup cd st).1).build_model_data sampled1
              (m.setup cd st).2).2)).1.1.1).val
    ∧ ((((m.setup cd st).1).build_model_data sampled1
          (m.setup cd st).2).1.1.2).map PFBox.val
        = ((((m.setup cd st).1).build_model_data sampled2
            ((((m.setup cd st).1).build_model_data sampled1
              (m.setup cd st).2).2)).1.1.2).map PFBox.val
    ∧ ((((m.setup cd st).1).build_model_data sampled1
          (m.setup cd st).2).1.1.1).objId
        ≠ ((((m.setup cd st).1).build_model_data sampled2
            ((((m.setup cd st).1).build_model_data sampled1
              (m.setup cd st).2).2)).1.1.1).objId := by
  obtain ⟨hm', _⟩ := setup_spec m cd st hch hchain
  have hm'seed : ((m.setup cd st).1).initial_conditions_seed
      = some (m.initial_conditions_seed.getD st.nextSeed) := by
    rw [hm']
  have hm'cosmo : ((m.setup cd st).1).cosmo_params = m.cosmo_params := by
    rw [hm']
  have hm'user : ((m.setup cd st).1).user_params = m.user_params := by
    rw [hm']
  have hm'red : ((m.setup cd st).1).redshift = m.redshift := by
    rw [hm']
  have hs1' : ∀ p ∈ sampled1.map Prod.fst,
      p ∉ ((m.setup cd st).1).cosmo_params.map Prod.fst := by
    rw [hm'cosmo]; exact hs1
  have hs2' : ∀ p ∈ sampled2.map Prod.fst,
      p ∉ ((m.setup cd st).1).cosmo_params.map Prod.fst := by
    rw [hm'cosmo]; exact hs2
  obtain ⟨b1a, b1b, b1c⟩ := build_spec ((m.setup cd st).1) sampled1
    (m.setup cd st).2 (m.initial_conditions_seed.getD st.nextSeed)
    hm'seed hs1'
  obtain ⟨b2a, b2b, _⟩ := build_spec ((m.setup cd st).1) sampled2
    ((((m.setup cd st).1).build_model_data sampled1 (m.setup cd st).2).2)
    (m.initial_conditions_seed.getD st.nextSeed) hm'seed hs2'
  refine ⟨?_, ?_, ?_, ?_⟩
  · rw [b1a, hm'seed]
  · rw [b1a, b2a]
    simp [ICBox.val]
  · rw [b1b, b2b]
  · rw [b1a, b2a]
    simp only [b1c]
    omega

theorem C1_setup_fixes_seed_and_value_reuse_witness :
    c1Module.change_seed_every_iter = false
    ∧ (∀ p ∈ ([("HII_EFF_FACTOR", (35 : ℚ))] : ParamDict).map Prod.fst,
        p ∉ c1Module.cosmo_params.map Prod.fst)
    ∧ (c1Setup.1.initial_conditions_seed = some c1Build1.1.1.1.random_seed
      ∧ c1Build1.1.1.1.val = c1Build2.1.1.1.val
      ∧ (c1Build1.1.1.2).map PFBox.val = (c1Build2.1.1.2).map PFBox.val
      ∧ c1Build1.1.1.1.objId ≠ c1Build2.1.1.1.objId) :=
  ⟨rfl, by decide,
   C1_setup_fixes_seed_and_value_reuse c1Module [("HII_EFF_FACTOR", 35)]
     [("HII_EFF_FACTOR", 35)] [("HII_EFF_FACTOR", 35)] ⟨0, 7⟩ rfl
     (by decide) (by decide) (by decide)⟩
